import Mathlib

/-
Verification of flexio (src/flexio/flexio.py): a shallow embedding of the
mode-reconciliation and resource-lifetime logic, together with theorems
settling the specified properties.

Conventions of the embedding:
  * the Python classes FlexTextIO and FlexBinaryIO appear here as
    `FlexTextIo` / `FlexBinaryIo` (and a constructed wrapper instance of
    either class as `FlexIo`);
  * a Python mode string is a `List Char`;
  * Python `Optional[str]` arguments are `Option`; Python truthiness of a
    string (`if mode:`) is `pyTruthy`, and `mode or default` is `pyOr`;
  * Python `str` / `bytes` payloads are the two constructors of `Payload`;
  * the underlying platform stream (CPython file object) is `PyFile`; every
    operation on a closed platform stream raises
    `ValueError: I/O operation on closed file`, modelled as `Err.stateError`
    (the spec's StateError); writing a payload of the wrong flavor raises
    `TypeError`, modelled as `Err.typeError`; the `ValueError`s that
    flexio itself raises at construction time are `Err.valueError`
    (the spec's ConfigurationError).
-/

namespace Flexio

/-- A Python open-mode string, as its list of characters. -/
abbrev Mode := List Char

/-- Python truthiness of an optional string: `None` and `""` are falsy. -/
def pyTruthy : Option Mode → Bool
  | Option.none => false
  | some m => !m.isEmpty

/-- Python `m or d` for an optional string `m`: yields `d` exactly when `m`
is `None` or empty. Mirrors `mode = mode or 'rt'` in the source. -/
def pyOr (m : Option Mode) (d : Mode) : Mode :=
  match m with
  | Option.none => d
  | some s => if s.isEmpty then d else s

/-- `compute_wre` from flexio.py: start from 0, add `0b1` when `'+'` or `'r'`
occurs in the mode string, add `0b10` when `'+'`, `'w'` or `'a'` occurs, and
add `0b100` when `'b'` occurs. -/
def compute_wre (mode : Mode) : Nat :=
  let value : Nat := 0
  let value := if '+' ∈ mode ∨ 'r' ∈ mode then value + 0b1 else value
  let value := if '+' ∈ mode ∨ 'w' ∈ mode ∨ 'a' ∈ mode then value + 0b10 else value
  let value := if 'b' ∈ mode then value + 0b100 else value
  value

/-- `cover_wre` from flexio.py: `(lv & rv) == rv` on the two mode vectors. -/
def cover_wre (l_mode r_mode : Mode) : Bool :=
  let lv := compute_wre l_mode
  let rv := compute_wre r_mode
  decide ((lv &&& rv) = rv)

/-- The spec's 3-bit capability vector, written from the spec's words
(§4.2): bit0 = readable, bit1 = writable-or-appendable, bit2 = binary.
Used only to compare the spec's description against `compute_wre` /
`cover_wre` from the source. -/
structure CapVec where
  readable : Bool
  writable : Bool
  binary : Bool
deriving DecidableEq

/-- The spec's encoding of a mode string as a capability vector (§4.2). -/
def specCapVec (m : Mode) : CapVec :=
  { readable := decide ('+' ∈ m ∨ 'r' ∈ m)
    writable := decide ('+' ∈ m ∨ 'w' ∈ m ∨ 'a' ∈ m)
    binary := decide ('b' ∈ m) }

/-- The spec's subset test (§4.2): every bit set in the requested vector is
also set in the actual vector. -/
def specSubset (requested actual : CapVec) : Bool :=
  (!requested.readable || actual.readable) &&
  (!requested.writable || actual.writable) &&
  (!requested.binary || actual.binary)

/-- The error taxonomy visible to these claims. `valueError` is the
`ValueError` flexio raises at construction (the spec's ConfigurationError);
`typeError` is the platform `TypeError` for a payload of the wrong flavor;
`stateError` is the platform `ValueError` on operating a closed stream (the
spec's StateError); `stopIteration` / `unsupportedOperation` are the
corresponding platform exceptions. -/
inductive Err
  | valueError
  | typeError
  | stateError
  | stopIteration
  | unsupportedOperation
deriving DecidableEq, Repr

/-- Text versus binary data flavor. -/
inductive Flavor
  | text
  | binary
deriving DecidableEq, Repr

/-- A Python payload: a `str` (list of characters) or a `bytes`
(list of byte values). -/
inductive Payload
  | str (chars : List Char)
  | bytes (data : List Nat)
deriving DecidableEq, Repr

/-- The flavor a payload carries. -/
def Payload.flavor : Payload → Flavor
  | .str _ => .text
  | .bytes _ => .binary

/-- Python truthiness of a payload: empty `str`/`bytes` are falsy. -/
def Payload.isEmpty : Payload → Bool
  | .str s => s.isEmpty
  | .bytes b => b.isEmpty

/-- Length of a payload. -/
def Payload.size : Payload → Nat
  | .str s => s.length
  | .bytes b => b.length

/-- Drop the first `n` elements of a payload. -/
def Payload.drop : Payload → Nat → Payload
  | .str s, n => .str (s.drop n)
  | .bytes b, n => .bytes (b.drop n)

/-- Take the first `n` elements of a payload. -/
def Payload.take : Payload → Nat → Payload
  | .str s, n => .str (s.take n)
  | .bytes b, n => .bytes (b.take n)

/-- Overwrite-at-position file semantics: writing `data` at offset `pos`
replaces that span of `content` and keeps the rest. -/
def writeAt {α : Type} (content : List α) (pos : Nat) (data : List α) : List α :=
  content.take pos ++ data ++ content.drop (pos + data.length)

/-- `writeAt` lifted to payloads; a flavor mismatch is never reached here
because callers check flavors first. -/
def Payload.writeAt : Payload → Nat → Payload → Payload
  | .str s, pos, .str d => .str (Flexio.writeAt s pos d)
  | .bytes b, pos, .bytes d => .bytes (Flexio.writeAt b pos d)
  | c, _, _ => c

/-- The first line of a list: everything up to and including the first
newline marker. -/
def takeLine {α : Type} [DecidableEq α] (nl : α) : List α → List α
  | [] => []
  | a :: rest => if a = nl then [a] else a :: takeLine nl rest

/-- Split a list into its lines (each keeping its trailing newline marker). -/
def splitLines {α : Type} [DecidableEq α] (nl : α) : List α → List (List α)
  | [] => []
  | a :: rest =>
    if a = nl then [a] :: splitLines nl rest
    else
      match splitLines nl rest with
      | [] => [[a]]
      | l :: ls => (a :: l) :: ls

/-- First line of a payload (text newline `'\n'`, binary newline byte 10). -/
def Payload.firstLine : Payload → Payload
  | .str s => .str (takeLine '\n' s)
  | .bytes b => .bytes (takeLine 10 b)

/-- All lines of a payload. -/
def Payload.toLines : Payload → List Payload
  | .str s => (splitLines '\n' s).map .str
  | .bytes b => (splitLines 10 b).map .bytes

/-- The empty payload of a given flavor. -/
def emptyPayload : Flavor → Payload
  | .text => .str []
  | .binary => .bytes []

/-- A platform stream (CPython file-like object): the collaborator the
wrapper delegates every I/O call to. `mode` and `name` are the metadata
attributes, `flavor` is the element type its write accepts, `content`/`pos`
give the standard seekable-file semantics, `closed` its open/closed state. -/
structure PyFile where
  flavor : Flavor
  mode : Mode
  name : Option Nat
  content : Payload
  pos : Nat
  closed : Bool
deriving DecidableEq, Repr

/-- The I/O operations the wrapper forwards to the underlying stream —
everything in its surface except `close`, the `closed` predicate and the
metadata accessors `mode` / `name`, which are modelled separately. -/
inductive Op
  | read
  | readline
  | readlines
  | write (p : Payload)
  | writelines (ps : List Payload)
  | seek (ofs : Nat)
  | tell
  | truncate (pos : Option Nat)
  | flush
  | fileno
  | isatty
  | readable
  | writable
  | seekable
  | next
deriving DecidableEq, Repr

/-- Result value of an operation. -/
inductive OpVal
  | unit
  | nat (n : Nat)
  | bool (b : Bool)
  | payload (p : Payload)
  | payloads (ps : List Payload)
deriving DecidableEq, Repr

/-- One write on an open platform stream: `TypeError` when the payload's
flavor does not match the stream's, otherwise overwrite at the current
position and advance it. -/
def PyFile.writePayload (f : PyFile) (p : Payload) : Except Err (Nat × PyFile) :=
  if p.flavor ≠ f.flavor then .error .typeError
  else .ok (p.size, { f with content := f.content.writeAt f.pos p, pos := f.pos + p.size })

/-- Sequential writes, stopping at the first failing element
(CPython `writelines` semantics). -/
def PyFile.writeList (f : PyFile) : List Payload → Except Err PyFile
  | [] => .ok f
  | p :: ps =>
    match f.writePayload p with
    | .error e => .error e
    | .ok r => r.2.writeList ps

/-- Semantics of the platform stream: every operation on a closed stream
raises `ValueError: I/O operation on closed file` (`Err.stateError`); on an
open stream, the standard CPython seekable-file behavior. `readable` and
`writable` follow the mode's capability bits. -/
def PyFile.step (f : PyFile) (op : Op) : Except Err (OpVal × PyFile) :=
  if f.closed then .error .stateError
  else
    match op with
    | .read => .ok (.payload (f.content.drop f.pos), { f with pos := f.content.size })
    | .readline =>
      let line := (f.content.drop f.pos).firstLine
      .ok (.payload line, { f with pos := f.pos + line.size })
    | .readlines => .ok (.payloads (f.content.drop f.pos).toLines, { f with pos := f.content.size })
    | .write p => (f.writePayload p).map fun r => (.nat r.1, r.2)
    | .writelines ps => (f.writeList ps).map fun f2 => (.unit, f2)
    | .seek ofs => .ok (.nat ofs, { f with pos := ofs })
    | .tell => .ok (.nat f.pos, f)
    | .truncate pos =>
      let n := pos.getD f.pos
      .ok (.nat n, { f with content := f.content.take n })
    | .flush => .ok (.unit, f)
    | .fileno =>
      match f.name with
      | some n => .ok (.nat n, f)
      | Option.none => .error .unsupportedOperation
    | .isatty => .ok (.bool false, f)
    | .readable => .ok (.bool (decide (compute_wre f.mode &&& 0b1 = 0b1)), f)
    | .writable => .ok (.bool (decide (compute_wre f.mode &&& 0b10 = 0b10)), f)
    | .seekable => .ok (.bool true, f)
    | .next =>
      let rest := f.content.drop f.pos
      if rest.isEmpty then .error .stopIteration
      else
        let line := rest.firstLine
        .ok (.payload line, { f with pos := f.pos + line.size })

/-- Platform `close`: mark the stream closed; a no-op on an already-closed
stream (idempotent). -/
def PyFile.closeFile (f : PyFile) : PyFile := { f with closed := true }

/-- The SpooledTemporaryFile's fresh backing store: a `BytesIO` when the
mode contains `'b'`, a character store otherwise, empty, at offset 0. -/
def newSpooledStore (mode : Mode) : PyFile :=
  let flavor : Flavor := if 'b' ∈ mode then .binary else .text
  { flavor := flavor, mode := mode, name := Option.none
    content := emptyPayload flavor, pos := 0, closed := false }

/-- flexio's `SpooledTemporaryFile.__init__`: create the store via the
platform class, then — only when `init` is truthy — `self._file.write(init)`
followed by `self._file.seek(0)`. A wrong-flavor write surfaces the
platform's `TypeError` unchanged. -/
def mkSpooledTemporaryFile (init : Option Payload) (mode : Mode) : Except Err PyFile :=
  let file := newSpooledStore mode
  match init with
  | Option.none => .ok file
  | some p =>
    if p.isEmpty then .ok file
    else
      match file.writePayload p with
      | .error e => .error e
      | .ok r => .ok { r.2 with pos := 0 }

/-- A file pointer in the sense of `is_file_pointer`: a path-like value or a
descriptor number. -/
inductive FilePointer
  | path (p : List Char)
  | descriptor (fd : Nat)
deriving DecidableEq, Repr

/-- The polymorphic `f` argument: `None`, a file pointer (path / descriptor),
or an already-open stream. The three cases are exactly the branches
`f is None` / `is_file_pointer(f)` / else of the constructors. -/
inductive Source
  | absent
  | fp (p : FilePointer)
  | io (s : PyFile)
deriving DecidableEq, Repr

/-- What the constructor binds to `self._io`: a freshly provisioned
ephemeral store, a stream newly opened from a file pointer, or the
handed-in stream itself. -/
inductive Underlying
  | spooled (store : PyFile)
  | opened (p : FilePointer) (mode : Mode)
  | given (s : PyFile)
deriving DecidableEq, Repr

/-- The spec's `owns_resource` (§3): true exactly when the resolver itself
opened the stream (ephemeral store or file pointer), false when an
already-open stream was handed in. -/
def Underlying.ownsResource : Underlying → Bool
  | .spooled _ => true
  | .opened _ _ => true
  | .given _ => false

/-- `FlexTextIo.__init__`: reject a truthy mode containing `'b'`; then by
source kind: absent → provision a SpooledTemporaryFile (default mode `'rt'`,
default `close_io` True); file pointer → reject a non-None `init` before
opening, else open the path/descriptor (default `close_io` True); existing
stream → check a truthy supplied mode against the stream's mode with
`cover_wre`, else adopt the stream (default `close_io` False). Returns
`(self._io, self._close_io)`. -/
def FlexTextIo.mk (f : Source) (mode : Option Mode) (init : Option Payload)
    (close_io : Option Bool) : Except Err (Underlying × Bool) :=
  if pyTruthy mode ∧ 'b' ∈ mode.getD [] then .error .valueError
  else
    match f with
    | .absent =>
      let m := pyOr mode ['r', 't']
      match mkSpooledTemporaryFile init m with
      | .error e => .error e
      | .ok store => .ok (.spooled store, close_io.getD true)
    | .fp p =>
      let m := pyOr mode ['r', 't']
      if init.isSome then .error .valueError
      else .ok (.opened p m, close_io.getD true)
    | .io s =>
      if pyTruthy mode ∧ cover_wre s.mode (mode.getD []) = false then .error .valueError
      else .ok (.given s, close_io.getD false)

/-- `FlexBinaryIo.__init__`: reject a truthy mode lacking `'b'`; otherwise
the same three branches as the text constructor with default mode `'rb'`. -/
def FlexBinaryIo.mk (f : Source) (mode : Option Mode) (init : Option Payload)
    (close_io : Option Bool) : Except Err (Underlying × Bool) :=
  if pyTruthy mode ∧ 'b' ∉ mode.getD [] then .error .valueError
  else
    match f with
    | .absent =>
      let m := pyOr mode ['r', 'b']
      match mkSpooledTemporaryFile init m with
      | .error e => .error e
      | .ok store => .ok (.spooled store, close_io.getD true)
    | .fp p =>
      let m := pyOr mode ['r', 'b']
      if init.isSome then .error .valueError
      else .ok (.opened p m, close_io.getD true)
    | .io s =>
      if pyTruthy mode ∧ cover_wre s.mode (mode.getD []) = false then .error .valueError
      else .ok (.given s, close_io.getD false)

/-- The default of the `close_io` keyword in each entry point's signature:
`None` for `FlexTextIo.__init__`, `True` for `FlexBinaryIo.__init__`, and
`True` for `flex_open`. -/
def FlexTextIo.defaultCloseIO : Option Bool := Option.none

/-- `FlexBinaryIo.__init__`'s signature default for `close_io`. -/
def FlexBinaryIo.defaultCloseIO : Option Bool := some true

/-- `flex_open`'s signature default for `close_io`. -/
def flex_open.defaultCloseIO : Option Bool := some true

/-- The `is_binary` computation at the top of `flex_open`: a truthy mode
decides by containing `'b'`; with no truthy mode, an absent or file-pointer
source defaults to binary, while an existing stream is consulted for `'b'`
in its own mode. -/
def flex_open_is_binary (f : Source) (mode : Option Mode) : Bool :=
  match f with
  | .absent | .fp _ => if pyTruthy mode then decide ('b' ∈ mode.getD []) else true
  | .io s => decide ('b' ∈ s.mode)

/-- `flex_open`: dispatch on `is_binary` to the binary or the text wrapper,
forwarding all arguments unchanged. -/
def flex_open (f : Source) (mode : Option Mode) (init : Option Payload)
    (close_io : Option Bool) : Except Err (Underlying × Bool) :=
  if flex_open_is_binary f mode then FlexBinaryIo.mk f mode init close_io
  else FlexTextIo.mk f mode init close_io

/-- A constructed wrapper at run time: `self._io` and `self._close_io`. -/
structure FlexIo where
  io : PyFile
  close_io : Bool
deriving DecidableEq, Repr

/-- `__exit__(exc_type, exc_val, exc_tb)`: close the underlying stream iff
`self._close_io`; the three exception arguments (opaque here) are ignored,
so normal and exceptional scope exits behave identically. -/
def FlexIo.exit (w : FlexIo) (_exc_type _exc_val _exc_tb : Option Nat) : FlexIo :=
  if w.close_io then { w with io := w.io.closeFile } else w

/-- The wrapper's explicit `close`: unconditionally `self._io.close()`. -/
def FlexIo.close (w : FlexIo) : FlexIo := { w with io := w.io.closeFile }

/-- The wrapper's `closed` property: `self._io.closed`. -/
def FlexIo.isClosed (w : FlexIo) : Bool := w.io.closed

/-- The wrapper's `mode` property: `self._io.mode`. -/
def FlexIo.modeAttr (w : FlexIo) : Mode := w.io.mode

/-- The wrapper's `name` property: `self._io.name`. -/
def FlexIo.nameAttr (w : FlexIo) : Option Nat := w.io.name

/-- Every other wrapper operation is pure delegation to the underlying
stream. -/
def FlexIo.step (w : FlexIo) (op : Op) : Except Err (OpVal × FlexIo) :=
  (w.io.step op).map fun r => (r.1, { w with io := r.2 })

/-- A sample open text stream handed in by a caller. -/
def exTextStream : PyFile :=
  { flavor := .text, mode := ['r', '+'], name := some 7
    content := .str ['a', 'b'], pos := 0, closed := false }

/-- A sample open binary stream (mode `'rb+'`) handed in by a caller. -/
def exBinStream : PyFile :=
  { flavor := .binary, mode := ['r', 'b', '+'], name := some 8
    content := .bytes [1, 2], pos := 0, closed := false }

/-- `compute_wre` written as the sum of three independent bit contributions. -/
lemma compute_wre_enc (m : Mode) :
    compute_wre m =
      (if '+' ∈ m ∨ 'r' ∈ m then 1 else 0) +
      ((if '+' ∈ m ∨ 'w' ∈ m ∨ 'a' ∈ m then 2 else 0) +
        (if 'b' ∈ m then 4 else 0)) := by
  by_cases h1 : ('+' ∈ m ∨ 'r' ∈ m) <;>
    by_cases h2 : ('+' ∈ m ∨ 'w' ∈ m ∨ 'a' ∈ m) <;>
      by_cases h3 : ('b' ∈ m) <;>
        simp [compute_wre, h1, h2, h3]

/-- The `(lv & rv) == rv` test on two 3-bit encodings is the pointwise
implication of the bits. -/
lemma land_bits_eq (x0 x1 x2 y0 y1 y2 : Bool) :
    decide ((((cond x0 1 0) + ((cond x1 2 0) + (cond x2 4 0))) &&&
             ((cond y0 1 0) + ((cond y1 2 0) + (cond y2 4 0)))) =
            ((cond y0 1 0) + ((cond y1 2 0) + (cond y2 4 0)))) =
      ((!y0 || x0) && ((!y1 || x1) && (!y2 || x2))) := by
  cases x0 <;> cases x1 <;> cases x2 <;> cases y0 <;> cases y1 <;> cases y2 <;> decide

/-- A Prop-valued `if` on a decidable condition is the `Bool.cond` of its
decision. -/
lemma ite_eq_cond_decide (p : Prop) [Decidable p] (a b : Nat) :
    (if p then a else b) = cond (decide p) a b := by
  by_cases h : p <;> simp [h]

/-- `cover_wre` agrees with the spec's subset test on capability vectors. -/
lemma cover_wre_eq_specSubset (actual requested : Mode) :
    cover_wre actual requested = specSubset (specCapVec requested) (specCapVec actual) := by
  unfold cover_wre specSubset specCapVec
  rw [compute_wre_enc actual, compute_wre_enc requested]
  rw [ite_eq_cond_decide, ite_eq_cond_decide, ite_eq_cond_decide,
      ite_eq_cond_decide, ite_eq_cond_decide, ite_eq_cond_decide]
  rw [land_bits_eq]
  simp [Bool.and_assoc]

/-- `compute_wre` only looks at which characters occur, so it is invariant
under permutation of the mode string. -/
lemma compute_wre_perm {m m2 : Mode} (h : m.Perm m2) :
    compute_wre m = compute_wre m2 := by
  unfold compute_wre
  simp only [h.mem_iff]

/-- C1: the mode compatibility check `cover_wre` is exactly the subset test
over the spec's 3-bit capability vectors — for every pair of mode strings it
agrees with "every bit set in the requested vector is also set in the actual
vector" — and its verdict is independent of the order of characters in
either string. -/
theorem C1_cover_is_capvec_subset (actual requested : Mode) :
    (cover_wre actual requested =
      specSubset (specCapVec requested) (specCapVec actual)) ∧
    (∀ actual2 requested2 : Mode, actual.Perm actual2 → requested.Perm requested2 →
      cover_wre actual2 requested2 = cover_wre actual requested) := by
  refine ⟨cover_wre_eq_specSubset actual requested, ?_⟩
  intro a2 r2 ha hr
  unfold cover_wre
  rw [compute_wre_perm ha, compute_wre_perm hr]

/-- Witness for C1 at the concrete pair `("r+", "w")` and the reordering
`("+r", "w")`. -/
theorem C1_cover_is_capvec_subset_witness :
    (cover_wre ['r', '+'] ['w'] =
      specSubset (specCapVec ['w']) (specCapVec ['r', '+'])) ∧
    cover_wre ['+', 'r'] ['w'] = cover_wre ['r', '+'] ['w'] :=
  ⟨(C1_cover_is_capvec_subset ['r', '+'] ['w']).1,
    (C1_cover_is_capvec_subset ['r', '+'] ['w']).2 ['+', 'r'] ['w']
      (by decide) (List.Perm.refl _)⟩

/-- C3: `__exit__` behaves identically whatever exception information the
scope exit carries, the underlying stream ends closed exactly when the
close-policy flag was set or it was closed already, and in particular for a
stream still open at exit time it is closed afterwards iff the policy flag
is true. -/
theorem C3_exit_closes_iff_policy (w : FlexIo) (e1 e2 e3 : Option Nat) :
    (w.exit e1 e2 e3 = w.exit Option.none Option.none Option.none) ∧
    ((w.exit e1 e2 e3).io.closed = (w.close_io || w.io.closed)) ∧
    (w.io.closed = false →
      ((w.exit e1 e2 e3).io.closed = true ↔ w.close_io = true)) := by
  unfold FlexIo.exit PyFile.closeFile
  by_cases h : w.close_io <;> simp [h]

/-- Witness for C3 on a concrete externally-opened stream with the policy
flag false and a pretend propagated exception. -/
theorem C3_exit_closes_iff_policy_witness :
    (FlexIo.exit ⟨exTextStream, false⟩ (some 1) (some 2) (some 3) =
      FlexIo.exit ⟨exTextStream, false⟩ Option.none Option.none Option.none) ∧
    ((FlexIo.exit ⟨exTextStream, false⟩ (some 1) (some 2) (some 3)).io.closed =
      (false || exTextStream.closed)) ∧
    ((FlexIo.exit ⟨exTextStream, false⟩ (some 1) (some 2) (some 3)).io.closed = true ↔
      false = true) := by
  have h := C3_exit_closes_iff_policy ⟨exTextStream, false⟩ (some 1) (some 2) (some 3)
  exact ⟨h.1, h.2.1, h.2.2 rfl⟩

/-- C10: the wrapper's explicit `close` method closes the underlying stream
unconditionally — whatever the close-policy flag and however the stream was
obtained — while with the policy flag false the scope-exit hook leaves the
wrapper completely untouched. -/
theorem C10_close_unconditional (w : FlexIo) (e1 e2 e3 : Option Nat) :
    ((FlexIo.close w).io.closed = true) ∧
    (w.close_io = false → w.exit e1 e2 e3 = w) := by
  refine ⟨rfl, ?_⟩
  intro h
  unfold FlexIo.exit
  simp [h]

/-- Witness for C10 on a caller-owned open stream with the policy flag
false: explicit close still closes it, scope exit does not. -/
theorem C10_close_unconditional_witness :
    ((FlexIo.close ⟨exTextStream, false⟩).io.closed = true) ∧
    FlexIo.exit ⟨exTextStream, false⟩ Option.none Option.none Option.none =
      ⟨exTextStream, false⟩ := by
  have h := C10_close_unconditional ⟨exTextStream, false⟩ Option.none Option.none Option.none
  exact ⟨h.1, h.2 rfl⟩

/-- A sample wrapper whose underlying stream is already closed. -/
def exClosedWrapper : FlexIo :=
  ⟨{ exTextStream with closed := true }, true⟩

/-- C9: once the wrapper is closed, every forwarded operation fails with the
closed-stream error (the spec's StateError), while `close` is an idempotent
no-op, the `closed` predicate still answers (true), and the metadata
accessors `mode` and `name` still yield the stream's metadata; no operation
leaves the closed state, so the Open → Closed transition is terminal. -/
theorem C9_closed_is_terminal (w : FlexIo) (h : w.isClosed = true) :
    (∀ op : Op, w.step op = .error .stateError) ∧
    (FlexIo.close w = w) ∧
    ((FlexIo.close w).isClosed = true) ∧
    (w.modeAttr = w.io.mode ∧ w.nameAttr = w.io.name) := by
  unfold FlexIo.isClosed at h
  refine ⟨?_, ?_, ?_, rfl, rfl⟩
  · intro op
    unfold FlexIo.step PyFile.step
    simp [h, Except.map]
  · unfold FlexIo.close PyFile.closeFile
    cases w with
    | mk io c =>
      cases io
      simp_all
  · unfold FlexIo.isClosed FlexIo.close PyFile.closeFile
    simp

/-- Witness for C9 on a concrete closed wrapper. -/
theorem C9_closed_is_terminal_witness :
    (∀ op : Op, exClosedWrapper.step op = .error .stateError) ∧
    (FlexIo.close exClosedWrapper = exClosedWrapper) ∧
    ((FlexIo.close exClosedWrapper).isClosed = true) ∧
    (exClosedWrapper.modeAttr = exClosedWrapper.io.mode ∧
      exClosedWrapper.nameAttr = exClosedWrapper.io.name) :=
  C9_closed_is_terminal exClosedWrapper rfl

/-- Writing a payload into an empty store of the same flavor leaves exactly
that payload. -/
lemma payload_writeAt_empty (p : Payload) (n : Nat) :
    (emptyPayload p.flavor).writeAt n p = p := by
  cases p <;> simp [emptyPayload, Payload.flavor, Payload.writeAt, Flexio.writeAt]

/-- Dropping nothing from a payload is the identity. -/
lemma payload_drop_zero (p : Payload) : p.drop 0 = p := by
  cases p <;> simp [Payload.drop]

/-- C6: provisioning an ephemeral store with a non-empty `init` of the
store's flavor writes the payload and repositions to offset 0, and an
immediate read returns exactly the seeded content from the beginning. -/
theorem C6_seeded_store_reads_back (p : Payload) (mode : Mode)
    (hne : p.isEmpty = false) (hfl : p.flavor = (newSpooledStore mode).flavor) :
    mkSpooledTemporaryFile (some p) mode =
      .ok { newSpooledStore mode with content := p, pos := 0 } ∧
    PyFile.step { newSpooledStore mode with content := p, pos := 0 } .read =
      .ok (.payload p, { newSpooledStore mode with content := p, pos := p.size }) := by
  by_cases hb : 'b' ∈ mode <;>
    cases p <;>
      simp_all [mkSpooledTemporaryFile, newSpooledStore, PyFile.writePayload,
        Payload.writeAt, Flexio.writeAt, emptyPayload, Payload.flavor,
        Payload.isEmpty, PyFile.step, Payload.drop, Payload.size]

/-- The spec's example seed payload `"abc"`. -/
def exSeed : Payload := .str ['a', 'b', 'c']

/-- The store expected after provisioning with `init="abc"`, `mode="r+"`. -/
def exSeedStore : PyFile :=
  { newSpooledStore ['r', '+'] with content := exSeed, pos := 0 }

/-- Witness for C6: the spec's own example, seeding a text store with
`"abc"` in mode `"r+"`; reading back returns `"abc"`. -/
theorem C6_seeded_store_reads_back_witness :
    mkSpooledTemporaryFile (some exSeed) ['r', '+'] = .ok exSeedStore ∧
    PyFile.step exSeedStore .read =
      .ok (.payload exSeed, { exSeedStore with pos := exSeed.size }) :=
  C6_seeded_store_reads_back exSeed ['r', '+'] rfl rfl

/-- A truthy mode containing `'b'` makes the text constructor raise. -/
lemma flexTextIo_mk_b_mode (f : Source) (m : Mode) (init : Option Payload)
    (c : Option Bool) (hm : m.isEmpty = false) (hb : 'b' ∈ m) :
    FlexTextIo.mk f (some m) init c = .error .valueError := by
  unfold FlexTextIo.mk
  rw [if_pos ⟨by simp [pyTruthy, hm], by simpa using hb⟩]

/-- A truthy mode lacking `'b'` makes the binary constructor raise. -/
lemma flexBinaryIo_mk_text_mode (f : Source) (m : Mode) (init : Option Payload)
    (c : Option Bool) (hm : m.isEmpty = false) (hb : 'b' ∉ m) :
    FlexBinaryIo.mk f (some m) init c = .error .valueError := by
  unfold FlexBinaryIo.mk
  rw [if_pos ⟨by simp [pyTruthy, hm], by simpa using hb⟩]

/-- `flex_open` is one of the two constructors on the same arguments. -/
lemma flex_open_branches (f : Source) (mode : Option Mode) (init : Option Payload)
    (c : Option Bool) :
    flex_open f mode init c = FlexBinaryIo.mk f mode init c ∨
    flex_open f mode init c = FlexTextIo.mk f mode init c := by
  unfold flex_open
  by_cases h : flex_open_is_binary f mode <;> simp [h]

/-- On an existing binary stream, `flex_open` routes to the binary
constructor. -/
lemma flex_open_io_binary (s : PyFile) (mode : Option Mode) (init : Option Payload)
    (c : Option Bool) (hs : 'b' ∈ s.mode) :
    flex_open (.io s) mode init c = FlexBinaryIo.mk (.io s) mode init c := by
  unfold flex_open
  rw [if_pos (by simpa [flex_open_is_binary] using hs)]

/-- On an existing text stream, `flex_open` routes to the text
constructor. -/
lemma flex_open_io_text (s : PyFile) (mode : Option Mode) (init : Option Payload)
    (c : Option Bool) (hs : 'b' ∉ s.mode) :
    flex_open (.io s) mode init c = FlexTextIo.mk (.io s) mode init c := by
  unfold flex_open
  rw [if_neg (by simpa [flex_open_is_binary] using hs)]

/-- C8: a supplied (truthy) mode containing `'b'` makes the text wrapper's
constructor fail, a supplied mode lacking `'b'` makes the binary wrapper's
constructor fail, and hence the factory on an existing binary-mode stream
with a text mode requested fails — all with the construction-time
`ValueError` (the spec's ConfigurationError). -/
theorem C8_flavor_mismatch_rejected (f : Source) (m : Mode) (init : Option Payload)
    (c : Option Bool) (hm : m.isEmpty = false) :
    ('b' ∈ m → FlexTextIo.mk f (some m) init c = .error .valueError) ∧
    ('b' ∉ m → FlexBinaryIo.mk f (some m) init c = .error .valueError) ∧
    (∀ s : PyFile, 'b' ∈ s.mode → 'b' ∉ m →
      flex_open (.io s) (some m) init c = .error .valueError) := by
  refine ⟨fun hb => flexTextIo_mk_b_mode f m init c hm hb,
    fun hb => flexBinaryIo_mk_text_mode f m init c hm hb, ?_⟩
  intro s hs hb
  rw [flex_open_io_binary s (some m) init c hs]
  exact flexBinaryIo_mk_text_mode (.io s) m init c hm hb

/-- Witness for C8: the text constructor on mode `"rb"`, the binary
constructor on mode `"r"`, and the factory on an existing `"rb+"` stream
with mode `"r"` requested (the spec's §8 scenario) all raise. -/
theorem C8_flavor_mismatch_rejected_witness :
    FlexTextIo.mk (.io exBinStream) (some ['r', 'b']) Option.none Option.none =
      .error .valueError ∧
    FlexBinaryIo.mk (.io exBinStream) (some ['r']) Option.none Option.none =
      .error .valueError ∧
    flex_open (.io exBinStream) (some ['r']) Option.none Option.none =
      .error .valueError :=
  ⟨(C8_flavor_mismatch_rejected (.io exBinStream) ['r', 'b'] Option.none Option.none rfl).1
      (by decide),
   (C8_flavor_mismatch_rejected (.io exBinStream) ['r'] Option.none Option.none rfl).2.1
      (by decide),
   (C8_flavor_mismatch_rejected (.io exBinStream) ['r'] Option.none Option.none rfl).2.2
      exBinStream (by decide) (by decide)⟩

/-- The text constructor's existing-stream branch, for a flavor-consistent
supplied mode: the `cover_wre` test alone decides between adopting the
stream and raising. -/
lemma flexTextIo_mk_stream (s : PyFile) (m : Mode) (init : Option Payload)
    (c : Option Bool) (hm : m.isEmpty = false) (hb : 'b' ∉ m) :
    FlexTextIo.mk (.io s) (some m) init c =
      (if cover_wre s.mode m then .ok (.given s, c.getD false)
       else .error .valueError) := by
  unfold FlexTextIo.mk
  rw [if_neg (by simp [hb])]
  dsimp only []
  by_cases hcov : cover_wre s.mode m <;> simp [pyTruthy, hm, hcov]

/-- The binary constructor's existing-stream branch, for a flavor-consistent
supplied mode. -/
lemma flexBinaryIo_mk_stream (s : PyFile) (m : Mode) (init : Option Payload)
    (c : Option Bool) (hm : m.isEmpty = false) (hb : 'b' ∈ m) :
    FlexBinaryIo.mk (.io s) (some m) init c =
      (if cover_wre s.mode m then .ok (.given s, c.getD false)
       else .error .valueError) := by
  unfold FlexBinaryIo.mk
  rw [if_neg (by simp [hb])]
  dsimp only []
  by_cases hcov : cover_wre s.mode m <;> simp [pyTruthy, hm, hcov]

/-- C2 (amended): for an existing stream with a supplied mode whose flavor
matches the chosen wrapper, construction fails with the configuration
`ValueError` exactly when the supplied mode's capability vector is not a
subset of the stream's, and otherwise adopts the handed-in stream itself
(no new stream) with `owns_resource` false; a flavor-mismatched supplied
mode fails even when the vector is a subset. -/
theorem C2_stream_mode_checked (s : PyFile) (m : Mode) (init : Option Payload)
    (c : Option Bool) (hm : m.isEmpty = false) :
    ('b' ∉ m → FlexTextIo.mk (.io s) (some m) init c =
      (if cover_wre s.mode m then .ok (.given s, c.getD false)
       else .error .valueError)) ∧
    ('b' ∈ m → FlexBinaryIo.mk (.io s) (some m) init c =
      (if cover_wre s.mode m then .ok (.given s, c.getD false)
       else .error .valueError)) ∧
    Underlying.ownsResource (.given s) = false :=
  ⟨fun hb => flexTextIo_mk_stream s m init c hm hb,
   fun hb => flexBinaryIo_mk_stream s m init c hm hb, rfl⟩

/-- Witness for C2 on an existing `"r+"` text stream with mode `"r"`
requested and an existing `"rb+"` binary stream with mode `"rb"`
requested. -/
theorem C2_stream_mode_checked_witness :
    FlexTextIo.mk (.io exTextStream) (some ['r']) Option.none Option.none =
      (if cover_wre exTextStream.mode ['r']
       then .ok (.given exTextStream, Option.none.getD false)
       else .error .valueError) ∧
    FlexBinaryIo.mk (.io exBinStream) (some ['r', 'b']) Option.none Option.none =
      (if cover_wre exBinStream.mode ['r', 'b']
       then .ok (.given exBinStream, Option.none.getD false)
       else .error .valueError) ∧
    Underlying.ownsResource (.given exTextStream) = false :=
  ⟨(C2_stream_mode_checked exTextStream ['r'] Option.none Option.none rfl).1 (by decide),
   (C2_stream_mode_checked exBinStream ['r', 'b'] Option.none Option.none rfl).2.1
      (by decide),
   (C2_stream_mode_checked exTextStream ['r'] Option.none Option.none rfl).2.2⟩

/-- C2 counterexample: requesting mode `"r"` on an existing `"rb+"` stream —
the requested capability vector IS a subset of the actual one, yet the
factory raises the configuration `ValueError` (the flavor check fires
first), so "if it is a subset, the handed-in stream becomes the underlying
stream" is false as stated. -/
theorem C2_counterexample :
    cover_wre exBinStream.mode ['r'] = true ∧
    flex_open (.io exBinStream) (some ['r']) Option.none (some false) =
      .error .valueError ∧
    FlexBinaryIo.mk (.io exBinStream) (some ['r']) Option.none (some false) =
      .error .valueError :=
  ⟨rfl, rfl, rfl⟩

/-- With the close-policy argument `None`, the text constructor's effective
flag equals the ownership rule. -/
lemma flexTextIo_mk_none_policy (f : Source) (mode : Option Mode)
    (init : Option Payload) (u : Underlying) (b : Bool)
    (h : FlexTextIo.mk f mode init Option.none = .ok (u, b)) :
    b = u.ownsResource := by
  unfold FlexTextIo.mk at h
  split at h
  · simp at h
  · cases f with
    | absent =>
      dsimp only [] at h
      cases hs : mkSpooledTemporaryFile init (pyOr mode ['r', 't']) with
      | error e => rw [hs] at h; simp at h
      | ok st =>
        rw [hs] at h
        simp at h
        rw [h.2, ← h.1]
        rfl
    | fp p =>
      dsimp only [] at h
      by_cases hi : init.isSome = true
      · simp [hi] at h
      · simp [hi] at h
        rw [h.2, ← h.1]
        rfl
    | io s =>
      dsimp only [] at h
      split at h
      · simp at h
      · simp at h
        rw [h.2, ← h.1]
        rfl

/-- With the close-policy argument `None`, the binary constructor's
effective flag equals the ownership rule. -/
lemma flexBinaryIo_mk_none_policy (f : Source) (mode : Option Mode)
    (init : Option Payload) (u : Underlying) (b : Bool)
    (h : FlexBinaryIo.mk f mode init Option.none = .ok (u, b)) :
    b = u.ownsResource := by
  unfold FlexBinaryIo.mk at h
  split at h
  · simp at h
  · cases f with
    | absent =>
      dsimp only [] at h
      cases hs : mkSpooledTemporaryFile init (pyOr mode ['r', 'b']) with
      | error e => rw [hs] at h; simp at h
      | ok st =>
        rw [hs] at h
        simp at h
        rw [h.2, ← h.1]
        rfl
    | fp p =>
      dsimp only [] at h
      by_cases hi : init.isSome = true
      · simp [hi] at h
      · simp [hi] at h
        rw [h.2, ← h.1]
        rfl
    | io s =>
      dsimp only [] at h
      split at h
      · simp at h
      · simp at h
        rw [h.2, ← h.1]
        rfl

/-- C4 (amended): when the close-policy argument passed in is `None` — the
signature default of `FlexTextIo.__init__` only — every successful
construction through either constructor or the factory has its effective
close-on-exit flag equal to the ownership rule: true for provisioned or
freshly opened streams, false for a handed-in stream. (`FlexBinaryIo` and
`flex_open` default the argument to `True` instead, see the
counterexample.) -/
theorem C4_none_policy_follows_ownership (f : Source) (mode : Option Mode)
    (init : Option Payload) (u : Underlying) (b : Bool) :
    (FlexTextIo.mk f mode init Option.none = .ok (u, b) → b = u.ownsResource) ∧
    (FlexBinaryIo.mk f mode init Option.none = .ok (u, b) → b = u.ownsResource) ∧
    (flex_open f mode init Option.none = .ok (u, b) → b = u.ownsResource) := by
  refine ⟨flexTextIo_mk_none_policy f mode init u b,
    flexBinaryIo_mk_none_policy f mode init u b, ?_⟩
  intro h
  rcases flex_open_branches f mode init Option.none with he | he
  · exact flexBinaryIo_mk_none_policy f mode init u b (he ▸ h)
  · exact flexTextIo_mk_none_policy f mode init u b (he ▸ h)

/-- Witness for C4 at three concrete sources: a handed-in stream through
the text constructor, an absent source through the binary constructor, and
a path through the factory, each with close-policy `None`. -/
theorem C4_none_policy_follows_ownership_witness :
    false = Underlying.ownsResource (.given exTextStream) ∧
    true = Underlying.ownsResource (.spooled (newSpooledStore ['r', 'b'])) ∧
    true = Underlying.ownsResource (.opened (.path ['p']) ['r', 'b']) :=
  ⟨(C4_none_policy_follows_ownership (.io exTextStream) Option.none Option.none
      (.given exTextStream) false).1 rfl,
   (C4_none_policy_follows_ownership .absent Option.none Option.none
      (.spooled (newSpooledStore ['r', 'b'])) true).2.1 rfl,
   (C4_none_policy_follows_ownership (.fp (.path ['p'])) Option.none Option.none
      (.opened (.path ['p']) ['r', 'b']) true).2.2 rfl⟩

/-- C4 counterexample: under the actual signature defaults — `close_io=True`
for `FlexBinaryIo.__init__` and for `flex_open` — a caller who does not
choose a close policy and hands in an already-open stream gets effective
flag `true`, although `owns_resource` is `false`: the claimed equality with
the ownership rule fails. -/
theorem C4_counterexample :
    FlexBinaryIo.mk (.io exBinStream) Option.none Option.none
      FlexBinaryIo.defaultCloseIO = .ok (.given exBinStream, true) ∧
    flex_open (.io exBinStream) Option.none Option.none
      flex_open.defaultCloseIO = .ok (.given exBinStream, true) ∧
    Underlying.ownsResource (.given exBinStream) = false :=
  ⟨rfl, rfl, rfl⟩

/-- The text constructor rejects a supplied `init` for a file-pointer
source, before any open is attempted. -/
lemma flexTextIo_mk_fp_init (p : FilePointer) (mode : Option Mode)
    (init : Option Payload) (c : Option Bool) (h : init.isSome = true) :
    FlexTextIo.mk (.fp p) mode init c = .error .valueError := by
  unfold FlexTextIo.mk
  split
  · rfl
  · rfl

/-- The binary constructor rejects a supplied `init` for a file-pointer
source, before any open is attempted. -/
lemma flexBinaryIo_mk_fp_init (p : FilePointer) (mode : Option Mode)
    (init : Option Payload) (c : Option Bool) (h : init.isSome = true) :
    FlexBinaryIo.mk (.fp p) mode init c = .error .valueError := by
  unfold FlexBinaryIo.mk
  split
  · rfl
  · rfl

/-- C5 (amended): a non-None `init` together with a path or descriptor
source fails with the configuration `ValueError` in both constructors and
in the factory, and the rejection happens in the constructor before the
platform open is reached; a handed-in open stream, however, silently
ignores `init` (see the counterexample). -/
theorem C5_init_rejected_for_file_pointer (p : FilePointer) (mode : Option Mode)
    (init : Option Payload) (c : Option Bool) (h : init.isSome = true) :
    FlexTextIo.mk (.fp p) mode init c = .error .valueError ∧
    FlexBinaryIo.mk (.fp p) mode init c = .error .valueError ∧
    flex_open (.fp p) mode init c = .error .valueError := by
  refine ⟨flexTextIo_mk_fp_init p mode init c h,
    flexBinaryIo_mk_fp_init p mode init c h, ?_⟩
  rcases flex_open_branches (.fp p) mode init c with he | he <;> rw [he]
  · exact flexBinaryIo_mk_fp_init p mode init c h
  · exact flexTextIo_mk_fp_init p mode init c h

/-- Witness for C5 at a concrete path source with `init="x"`. -/
theorem C5_init_rejected_for_file_pointer_witness :
    FlexTextIo.mk (.fp (.path ['q'])) Option.none (some (.str ['x'])) Option.none =
      .error .valueError ∧
    FlexBinaryIo.mk (.fp (.path ['q'])) Option.none (some (.str ['x'])) Option.none =
      .error .valueError ∧
    flex_open (.fp (.path ['q'])) Option.none (some (.str ['x'])) Option.none =
      .error .valueError :=
  C5_init_rejected_for_file_pointer (.path ['q']) Option.none (some (.str ['x']))
    Option.none rfl

/-- C5 counterexample: handing in an already-open stream together with a
non-None `init` does NOT fail — the constructor's existing-stream branch
never looks at `init` and adopts the stream — refuting "for every
non-absent source". -/
theorem C5_counterexample :
    FlexTextIo.mk (.io exTextStream) Option.none (some (.str ['x'])) Option.none =
      .ok (.given exTextStream, false) :=
  rfl

/-- C7 (amended): provisioning an ephemeral store with a non-empty `init`
of the wrong flavor fails — but with the platform `TypeError` surfacing
unchanged from the backing store's write, not with the configuration
`ValueError`. -/
theorem C7_wrong_flavor_init_type_error (p : Payload) (mode : Mode)
    (hne : p.isEmpty = false) (hfl : p.flavor ≠ (newSpooledStore mode).flavor) :
    mkSpooledTemporaryFile (some p) mode = .error .typeError ∧
    Err.typeError ≠ Err.valueError := by
  refine ⟨?_, by decide⟩
  unfold mkSpooledTemporaryFile PyFile.writePayload
  simp [hne, hfl]

/-- Witness for C7 at a text `init` `"x"` for a binary store (mode
`"rb"`). -/
theorem C7_wrong_flavor_init_type_error_witness :
    mkSpooledTemporaryFile (some (.str ['x'])) ['r', 'b'] = .error .typeError ∧
    Err.typeError ≠ Err.valueError :=
  C7_wrong_flavor_init_type_error (.str ['x']) ['r', 'b'] rfl (by decide)

/-- C7 counterexample: through either wrapper, a non-empty wrong-flavor
`init` for an ephemeral store surfaces `TypeError`, which is not the
configuration `ValueError` the claim names. -/
theorem C7_counterexample :
    FlexBinaryIo.mk .absent Option.none (some (.str ['x'])) Option.none =
      .error .typeError ∧
    FlexTextIo.mk .absent Option.none (some (.bytes [0])) Option.none =
      .error .typeError ∧
    Err.typeError ≠ Err.valueError :=
  ⟨rfl, rfl, by decide⟩

end Flexio

